import Mathlib

/-!
Verification of the JC_AGENT-V2 specification against the repository.

The implementation modules referenced by the documentation (jc/secrets.py,
jc/llm_provider.py, jc/error_handling.py, jc/auth.py, the API server and the
flow runtime) are not present in the source tree; only their reports, test
guides and generated outputs are. Components that are absent are therefore
modelled from the specification, with a doc comment on each such definition
saying so. The generated `THIRD_PARTY_NOTICES.md` document is present in the
tree and is embedded verbatim as data.
-/

namespace JCAgent

/-! ## Circuit breaker (modelled from the spec, section 4.4) -/

/-- Modelled from the spec: the three states of the `CircuitBreaker` in the
missing `jc/error_handling.py` — CLOSED (normal), OPEN (short-circuiting),
HALF_OPEN (single trial probe). -/
inductive CBState where
  | closed
  | opened
  | halfOpen
deriving DecidableEq, Repr

/-- Modelled from the spec: the breaker's mutable fields — current state,
count of consecutive failures, and the time at which it last opened. -/
structure CircuitBreaker where
  state : CBState
  failureCount : Nat
  openedAt : Nat
deriving DecidableEq, Repr

/-- Modelled from the spec: CLOSED→OPEN after 5 consecutive failures. -/
def failureThreshold : Nat := 5

/-- Modelled from the spec: OPEN persists for 60 seconds. -/
def recoveryTimeout : Nat := 60

/-- Outcome of the underlying operation, when it is invoked. -/
inductive Outcome where
  | success
  | failure
deriving DecidableEq, Repr

/-- The breaker as it starts: CLOSED with a zero failure counter. -/
def initBreaker : CircuitBreaker :=
  { state := CBState.closed, failureCount := 0, openedAt := 0 }

/-- Modelled from the spec: the admission check performed at the start of a
call.  While OPEN and within the 60-second window the call is rejected
fail-fast (ProviderUnavailable, underlying operation not invoked); once the
window has elapsed the breaker moves to HALF_OPEN and the call proceeds as
the single trial call. -/
def cbAllow (b : CircuitBreaker) (now : Nat) : CircuitBreaker × Bool :=
  match b.state with
  | CBState.opened =>
      if b.openedAt + recoveryTimeout ≤ now then
        ({ b with state := CBState.halfOpen }, true)
      else
        (b, false)
  | _ => (b, true)

/-- Modelled from the spec: a successful call returns the breaker to CLOSED
and resets the failure counter to zero. -/
def cbRecordSuccess (b : CircuitBreaker) : CircuitBreaker :=
  { b with state := CBState.closed, failureCount := 0 }

/-- Modelled from the spec: a failure increments the consecutive-failure
counter; a failed trial call (HALF_OPEN), or reaching the threshold of 5,
(re)opens the breaker and (re)starts the 60-second timer. -/
def cbRecordFailure (b : CircuitBreaker) (now : Nat) : CircuitBreaker :=
  let n := b.failureCount + 1
  if b.state = CBState.halfOpen ∨ failureThreshold ≤ n then
    { state := CBState.opened, failureCount := n, openedAt := now }
  else
    { b with failureCount := n }

/-- Modelled from the spec: one guarded call through the breaker at time
`now`.  `outcome` is what the underlying operation would do if invoked.
Returns the new breaker and whether the operation was actually invoked
(`false` means the call failed immediately with ProviderUnavailable). -/
def cbCall (b : CircuitBreaker) (now : Nat) (outcome : Outcome) :
    CircuitBreaker × Bool :=
  let p := cbAllow b now
  if p.2 then
    match outcome with
    | Outcome.success => (cbRecordSuccess p.1, true)
    | Outcome.failure => (cbRecordFailure p.1 now, true)
  else
    (p.1, false)

/-- The states reachable from the initial breaker under `cbCall`. -/
inductive CBReachable : CircuitBreaker → Prop where
  | init : CBReachable initBreaker
  | step (b : CircuitBreaker) (now : Nat) (o : Outcome) :
      CBReachable b → CBReachable (cbCall b now o).1

/-- Invariant maintained between calls: in CLOSED the consecutive-failure
count is below the threshold, and HALF_OPEN is never resting state (it admits
exactly one trial call, decided within the same guarded call). -/
def CBInv (b : CircuitBreaker) : Prop :=
  (b.state = CBState.closed → b.failureCount < failureThreshold) ∧
  b.state ≠ CBState.halfOpen

/-! ## Secrets resolver (modelled from the spec, section 4.6) -/

/-- The ambient process environment and filesystem seen by the secrets
resolver: environment variables and (trimmed on read) file contents. -/
structure Env where
  vars : String → Option String
  files : String → Option String

/-- Modelled from the spec: the environment variable holding the API key of
each named provider (missing `jc/secrets.py`). -/
def providerEnvVar (provider : String) : Option String :=
  if provider = "openai" then some "OPENAI_API_KEY"
  else if provider = "openrouter" then some "OPENROUTER_API_KEY"
  else if provider = "huggingface" then some "HUGGINGFACE_API_KEY"
  else none

/-- Key lookup for one named provider. -/
def lookupProviderKey (env : Env) (p : String) : Option String :=
  match providerEnvVar p with
  | some v => env.vars v
  | none => none

/-- Modelled from the spec: the `HUGGINGFACE_KEY_FILE` fallback — the file's
trimmed contents are treated as the secret. -/
def readKeyFile (env : Env) : Option String :=
  match env.vars "HUGGINGFACE_KEY_FILE" with
  | some path =>
      match env.files path with
      | some contents => some contents.trim
      | none => none
  | none => none

/-- Modelled from the spec: `get_llm_api_key(provider?)` from the missing
`jc/secrets.py` resolves a key by: (1) the explicit provider parameter;
(2) the environment-configured default provider (`JC_PROVIDER`); (3) fixed
priority `OPENAI_API_KEY` over `OPENROUTER_API_KEY`; then
`HUGGINGFACE_API_KEY`, then `GITHUB_TOKEN`, then the trimmed contents of the
file named by `HUGGINGFACE_KEY_FILE`; returning `none` rather than raising
when nothing is found. -/
def get_llm_api_key (env : Env) (provider : Option String) : Option String :=
  (match provider with
   | some p => lookupProviderKey env p
   | none => none).orElse fun _ =>
  (match env.vars "JC_PROVIDER" with
   | some p => lookupProviderKey env p
   | none => none).orElse fun _ =>
  (env.vars "OPENAI_API_KEY").orElse fun _ =>
  (env.vars "OPENROUTER_API_KEY").orElse fun _ =>
  (env.vars "HUGGINGFACE_API_KEY").orElse fun _ =>
  (env.vars "GITHUB_TOKEN").orElse fun _ =>
  readKeyFile env

/-! ## Rate limiting (modelled from the spec, section 4.9) -/

/-- The three rate-limited endpoints of the HTTP API. -/
inductive Endpoint where
  | chat
  | askQuestions
  | events
deriving DecidableEq, Repr

/-- Modelled from the spec: the per-endpoint budgets of the missing API
server — chat 10/minute, clarifying questions 20/minute, workspace events
50/minute. -/
def rateLimit : Endpoint → Nat
  | Endpoint.chat => 10
  | Endpoint.askQuestions => 20
  | Endpoint.events => 50

/-- Modelled from the spec: the sliding window is one minute long. -/
def windowSeconds : Nat := 60

/-- One recorded request: client IP, endpoint, time (seconds). -/
structure Hit where
  ip : String
  endpointTag : Endpoint
  time : Nat
deriving DecidableEq, Repr

/-- The limiter's process-local in-memory state: the request log. -/
structure RateLimiter where
  hits : List Hit
deriving Repr

/-- The part of an HTTP response the limiter determines: the status code and
the retry-after hint attached to a 429. -/
structure RLResponse where
  status : Nat
  retryAfter : Option Nat
deriving DecidableEq, Repr

/-- Requests from `ip` to `ep` still inside the sliding window at `now`. -/
def countRecent (rl : RateLimiter) (ip : String) (ep : Endpoint) (now : Nat) :
    Nat :=
  (rl.hits.filter fun h =>
    h.ip == ip && h.endpointTag == ep && now < h.time + windowSeconds).length

/-- Modelled from the spec: per-client-IP, per-endpoint sliding-window
admission, independent of authentication (the request's identity never enters
the decision).  Within budget the request is served (200); over budget it is
rejected with 429 and a retry-after hint. -/
def rlRequest (rl : RateLimiter) (ip : String) (ep : Endpoint) (now : Nat) :
    RateLimiter × RLResponse :=
  let rl2 : RateLimiter := { hits := { ip := ip, endpointTag := ep, time := now } :: rl.hits }
  if countRecent rl ip ep now < rateLimit ep then
    (rl2, { status := 200, retryAfter := none })
  else
    (rl2, { status := 429, retryAfter := some windowSeconds })

/-- A whole sequence of same-client requests, returning every response. -/
def rlRun (rl : RateLimiter) (ip : String) (ep : Endpoint) :
    List Nat → RateLimiter × List RLResponse
  | [] => (rl, [])
  | t :: ts =>
      let p := rlRequest rl ip ep t
      let q := rlRun p.1 ip ep ts
      (q.1, p.2 :: q.2)

/-- The response sequence a sliding-window limiter with budget `lim` produces
when `n` requests arrive inside one window on top of `c` already-counted
ones. -/
def expectedResponses (c lim : Nat) : Nat → List RLResponse
  | 0 => []
  | n + 1 =>
      (if c < lim then ({ status := 200, retryAfter := none } : RLResponse)
       else { status := 429, retryAfter := some windowSeconds }) ::
      expectedResponses (c + 1) lim n

/-! ## Conversation state and checkpoints (modelled from the spec,
sections 3 and 4.1) -/

/-- One role-tagged utterance of a conversation. -/
structure ChatMessage where
  role : String
  content : String
deriving DecidableEq, Repr

/-- One task record of a conversation state. -/
structure TaskRecord where
  id : String
  description : String
  status : String
deriving DecidableEq, Repr

/-- One executed flow-step record: step name and wall-clock duration. -/
structure StepRecord where
  step : String
  duration : Nat
deriving DecidableEq, Repr

/-- Modelled from the spec: the `JCState` conversation state of the missing
flow runtime — thread id, ordered messages, ordered tasks, the Brain-owned
profile, and the append-only step history. -/
structure JCState where
  thread_id : String
  messages : List ChatMessage
  tasks : List TaskRecord
  profile : List (String × String)
  step_history : List StepRecord
deriving DecidableEq, Repr

/-- The error kinds the modelled operations surface. -/
inductive JCError where
  | notFound
deriving DecidableEq, Repr

/-- The serialized form of a checkpoint: every `JCState` field flattened to
primitive pairs/triples, as a JSON serializer would record them. -/
structure CheckpointData where
  thread_id : String
  messages : List (String × String)
  tasks : List (String × String × String)
  profile : List (String × String)
  step_history : List (String × Nat)
deriving DecidableEq, Repr

/-- Serialize a `JCState` into checkpoint form. -/
def encodeState (s : JCState) : CheckpointData :=
  { thread_id := s.thread_id
    messages := s.messages.map fun m => (m.role, m.content)
    tasks := s.tasks.map fun t => (t.id, t.description, t.status)
    profile := s.profile
    step_history := s.step_history.map fun r => (r.step, r.duration) }

/-- Rebuild a `JCState` from checkpoint form. -/
def decodeState (c : CheckpointData) : JCState :=
  { thread_id := c.thread_id
    messages := c.messages.map fun p => { role := p.1, content := p.2 }
    tasks := c.tasks.map fun p => { id := p.1, description := p.2.1, status := p.2.2 }
    profile := c.profile
    step_history := c.step_history.map fun p => { step := p.1, duration := p.2 } }

/-- The checkpoint directory: one serialized record per thread id, most
recent write first (last-write-wins on lookup). -/
structure CheckpointStore where
  entries : List (String × CheckpointData)
deriving Repr

/-- Modelled from the spec: `save_checkpoint(state)` persists the serialized
snapshot keyed by `state.thread_id`. -/
def save_checkpoint (store : CheckpointStore) (s : JCState) : CheckpointStore :=
  { entries := (s.thread_id, encodeState s) :: store.entries }

/-- Modelled from the spec: `load_checkpoint(thread_id)` reconstructs the
state last saved under that id, failing with NotFound on an unknown id. -/
def load_checkpoint (store : CheckpointStore) (tid : String) :
    Except JCError JCState :=
  match store.entries.find? (fun e => e.1 == tid) with
  | some e => Except.ok (decodeState e.2)
  | none => Except.error JCError.notFound

/-! ## Flow execution (modelled from the spec, section 4.1) -/

/-- The external world a flow run consults: the LLM gateway, the research
module, and the wall clock (duration of each step).  All three are oracles —
their behaviour is outside the program. -/
structure FlowEnv where
  llm : String → String
  research : String → String
  durations : String → Nat

/-- Modelled from the spec: the process-wide read-only `FLOWS` registry,
holding the built-in `research_then_summarize` flow `plan → research →
summarize`. -/
def FLOWS : List (String × List String) :=
  [("research_then_summarize", ["plan", "research", "summarize"])]

/-- The content of the newest message, used as the input of the next step. -/
def lastContent (s : JCState) : String :=
  (s.messages.getLast?.map fun m => m.content).getD ""

/-- Modelled from the spec: one flow step — `plan` asks the LLM gateway for a
short research plan from the user's message, `research` invokes the research
module on that plan, `summarize` asks the gateway to condense the findings;
each appends its output to `messages`. -/
def runStep (env : FlowEnv) (s : JCState) (name : String) : JCState :=
  if name = "plan" then
    { s with messages := s.messages ++ [{ role := "assistant", content := env.llm (lastContent s) }] }
  else if name = "research" then
    { s with messages := s.messages ++ [{ role := "assistant", content := env.research (lastContent s) }] }
  else if name = "summarize" then
    { s with messages := s.messages ++ [{ role := "assistant", content := env.llm (lastContent s) }] }
  else s

/-- The result object `run_flow` returns: flow id, final messages, and the
full step history. -/
structure FlowResult where
  flow_id : String
  messages : List ChatMessage
  step_history : List StepRecord
deriving DecidableEq, Repr

/-- Modelled from the spec: `run_flow(flow_name, input)` looks the flow up in
`FLOWS` (NotFound if absent), executes each step strictly in declared order,
appends a step-history record (step name, wall-clock duration) after each
step, and returns `flow_id`, the final `messages` and the full
`step_history`. -/
def run_flow (env : FlowEnv) (flowName : String) (input : JCState) :
    Except JCError FlowResult :=
  match FLOWS.find? (fun f => f.1 == flowName) with
  | none => Except.error JCError.notFound
  | some f =>
      let final := f.2.foldl
        (fun st name =>
          let st2 := runStep env st name
          { st2 with step_history := st2.step_history ++ [{ step := name, duration := env.durations name }] })
        input
      Except.ok
        { flow_id := flowName
          messages := final.messages
          step_history := final.step_history }

/-! ## Authentication (modelled from the spec, section 4.9) -/

/-- The deployment's authentication configuration: the optional static API
key (`JC_API_KEY`). -/
structure AuthConfig where
  apiKey : Option String
deriving Repr

/-- The identity a request resolves to. -/
structure User where
  username : String
  scopes : List String
deriving DecidableEq, Repr

/-- Authentication failure kind and its HTTP status. -/
inductive AuthError where
  | unauthorized
deriving DecidableEq, Repr

/-- The HTTP status an authentication failure maps to. -/
def authStatus : AuthError → Nat
  | AuthError.unauthorized => 401

/-- Modelled from the spec: API-key authentication of the missing
`jc/auth.py`.  When no API key is configured for the deployment, the request
resolves to the anonymous identity with no scopes instead of being rejected;
when a key is configured, a missing or non-matching credential fails with
Unauthorized. -/
def authenticate (cfg : AuthConfig) (presented : Option String) :
    Except AuthError User :=
  match cfg.apiKey with
  | none => Except.ok { username := "anonymous", scopes := [] }
  | some k =>
      match presented with
      | some p =>
          if p = k then Except.ok { username := "api_user", scopes := [] }
          else Except.error AuthError.unauthorized
      | none => Except.error AuthError.unauthorized

/-! ## Retry with backoff (modelled from the spec, section 4.4) -/

/-- The retry decorator's parameters: attempt budget and base delay. -/
structure RetryPolicy where
  maxAttempts : Nat
  baseDelay : Nat
deriving DecidableEq, Repr

/-- Modelled from the spec: the decorator's defaults — `max_attempts=3`,
base delay one second. -/
def defaultRetryPolicy : RetryPolicy :=
  { maxAttempts := 3, baseDelay := 1 }

/-- The sleep before retry number `attempt + 1`: the base delay doubled each
time (`1s, 2s, 4s, …` at base 1) plus the random jitter drawn for that
attempt (`jitter` is the randomness oracle). -/
def backoffDelay (base : Nat) (jitter : Nat → Nat) (attempt : Nat) : Nat :=
  base * 2 ^ attempt + jitter attempt

/-- Modelled from the spec: the retry loop of the missing
`jc/error_handling.py`, with `fuel` attempts remaining and `attempt` attempts
already made.  `op n` is the outcome the underlying operation would produce
on attempt `n`; `transient` is the caller-specified set of retryable
exception kinds.  Returns the final outcome together with the list of sleeps
performed; the final exception is re-raised unchanged, and a non-transient
exception is re-raised immediately. -/
def retryGo {E A : Type} (op : Nat → Except E A) (transient : E → Bool)
    (jitter : Nat → Nat) (base : Nat) : Nat → Nat → Except E A × List Nat
  | attempt, fuel + 2 =>
      match op attempt with
      | Except.ok a => (Except.ok a, [])
      | Except.error e =>
          if transient e then
            let r := retryGo op transient jitter base (attempt + 1) (fuel + 1)
            (r.1, backoffDelay base jitter attempt :: r.2)
          else
            (Except.error e, [])
  | attempt, _ => (op attempt, [])

/-- Modelled from the spec: the `retry_with_backoff` decorator applied to one
call — run the operation under the policy, starting at attempt 0. -/
def retry_with_backoff {E A : Type} (op : Nat → Except E A)
    (transient : E → Bool) (jitter : Nat → Nat) (policy : RetryPolicy) :
    Except E A × List Nat :=
  retryGo op transient jitter policy.baseDelay 0 policy.maxAttempts

/-! ## Password hashing (modelled from the spec, section 4.9) -/

/-- A stored password hash: algorithm tag, iteration count, salt, digest. -/
structure PasswordHash where
  algorithm : String
  iterations : Nat
  salt : String
  digest : List Char
deriving DecidableEq, Repr

/-- Modelled from the spec: the PBKDF2 iteration count used by the missing
`jc/auth.py` hashing helper (the passlib `pbkdf2_sha256` default). -/
def pbkdf2Iterations : Nat := 29000

/-- Modelled from the spec: the PBKDF2-HMAC-SHA256 key-derivation primitive,
treated as an ideal (collision-free) function — the digest is modelled as the
salted input itself, which is injective in the password for a fixed salt; the
cryptographic compression of the real primitive carries no observable
behaviour at this level. -/
def pbkdf2_hmac_sha256 (salt : String) (iterations : Nat)
    (password : String) : List Char :=
  salt.toList ++ password.toList ++ (Nat.toDigits 10 iterations)

/-- Constant-time comparison: walks both lists to their full length with no
early exit, returning the verdict and the number of positions examined. -/
def ctCompare : List Char → List Char → Bool × Nat
  | [], [] => (true, 0)
  | [], _ :: ys =>
      let r := ctCompare [] ys
      (false, r.2 + 1)
  | _ :: xs, [] =>
      let r := ctCompare xs []
      (false, r.2 + 1)
  | x :: xs, y :: ys =>
      let r := ctCompare xs ys
      ((x == y) && r.1, r.2 + 1)

/-- Modelled from the spec: `hash_password` — PBKDF2-HMAC-SHA256, tagged
`pbkdf2_sha256` (not a bcrypt binding). -/
def hash_password (salt : String) (password : String) : PasswordHash :=
  { algorithm := "pbkdf2_sha256"
    iterations := pbkdf2Iterations
    salt := salt
    digest := pbkdf2_hmac_sha256 salt pbkdf2Iterations password }

/-- Modelled from the spec: `verify_password` recomputes the digest with the
stored salt and iteration count and compares it against the stored digest in
constant time. -/
def verify_password (password : String) (h : PasswordHash) : Bool :=
  (ctCompare (pbkdf2_hmac_sha256 h.salt h.iterations password) h.digest).1

/-! ## The generated third-party notices document

`THIRD_PARTY_NOTICES.md` is present in the source tree (the output of the
registry's notices generator); its twelve entries are embedded verbatim
below. -/

/-- One rendered entry of `THIRD_PARTY_NOTICES.md`: heading, upstream URL,
local path, confirmed license, optional notes line. -/
structure NoticeEntry where
  name : String
  url : String
  localPath : String
  license : String
  notes : Option String
deriving DecidableEq, Repr

/-- The entries of `src/THIRD_PARTY_NOTICES.md`, in document order. -/
def thirdPartyNotices : List NoticeEntry :=
  [ { name := "dyad"
      url := "https://github.com/dyad-sh/dyad.git"
      localPath := "dyad"
      license := "Apache-2.0"
      notes := some "Avoid src/pro/* without separate license review" },
    { name := "khoj"
      url := "https://github.com/khoj-ai/khoj.git"
      localPath := "khoj"
      license := "AGPL-3.0"
      notes := some "Strong copyleft — avoid embedding into runtime" },
    { name := "local-deepthink"
      url := "https://github.com/iblameandrew/local-deepthink.git"
      localPath := "local-deepthink"
      license := "UNKNOWN"
      notes := some "License not found; manual review required" },
    { name := "Promptgpt"
      url := "https://github.com/howard9192/Promptgpt.git"
      localPath := "Promptgpt"
      license := "Apache-2.0"
      notes := none },
    { name := "SurfSense"
      url := "https://github.com/MODSetter/SurfSense.git"
      localPath := "SurfSense"
      license := "Apache-2.0"
      notes := none },
    { name := "Local-NotebookLM"
      url := "https://github.com/Goekdeniz-Guelmez/Local-NotebookLM.git"
      localPath := "Local-NotebookLM"
      license := "Apache-2.0"
      notes := none },
    { name := "notebooklm-mcp"
      url := "https://github.com/PleasePrompto/notebooklm-mcp.git"
      localPath := "notebooklm-mcp"
      license := "MIT"
      notes := none },
    { name := "PageLM"
      url := "https://github.com/CaviraOSS/PageLM.git"
      localPath := "PageLM"
      license := "UNKNOWN"
      notes := some "License not found in workspace; manual review required" },
    { name := "ai_hacking_study_prompts"
      url := "https://github.com/theNetworkChuck/ai_hacking_study_prompts.git"
      localPath := "ai_hacking_study_prompts"
      license := "UNKNOWN"
      notes := none },
    { name := "ai-in-the-terminal"
      url := "https://github.com/theNetworkChuck/ai-in-the-terminal.git"
      localPath := "ai-in-the-terminal"
      license := "UNKNOWN"
      notes := none },
    { name := "n8n-terry-guide"
      url := "https://github.com/theNetworkChuck/n8n-terry-guide.git"
      localPath := "n8n-terry-guide"
      license := "UNKNOWN"
      notes := none },
    { name := "danielmiessler"
      url := "https://github.com/danielmiessler/danielmiessler.git"
      localPath := "danielmiessler"
      license := "UNKNOWN"
      notes := some "Large collection; check each subproject" } ]

/-- Whether `needle` starts `hay`, character by character. -/
def charsStart : List Char → List Char → Bool
  | [], _ => true
  | _ :: _, [] => false
  | x :: xs, y :: ys => x == y && charsStart xs ys

/-- Whether `needle` occurs contiguously anywhere in `hay`. -/
def charsOccur (needle : List Char) : List Char → Bool
  | [] => charsStart needle []
  | y :: ys => charsStart needle (y :: ys) || charsOccur needle ys

/-- Whether one string occurs inside another. -/
def strOccurs (needle hay : String) : Bool :=
  charsOccur needle.toList hay.toList

/-- An entry carries an explicit copyleft warning when its notes line
mentions copyleft. -/
def hasCopyleftWarning (e : NoticeEntry) : Bool :=
  match e.notes with
  | some n => strOccurs "copyleft" n
  | none => false

/-- An entry carries a manual-review note when its notes line calls for
manual review. -/
def hasManualReviewNote (e : NoticeEntry) : Bool :=
  match e.notes with
  | some n => strOccurs "manual review" n
  | none => false

/-! ## Concrete sample inputs -/

/-- An environment with both `OPENAI_API_KEY=A` and `OPENROUTER_API_KEY=B`
set, nothing else, and no files. -/
def envBoth : Env :=
  { vars := fun v =>
      if v = "OPENAI_API_KEY" then some "A"
      else if v = "OPENROUTER_API_KEY" then some "B"
      else none
    files := fun _ => none }

/-- A sample conversation state with one message and one task. -/
def sampleState : JCState :=
  { thread_id := "thread-1"
    messages := [{ role := "user", content := "Checkpoint test" }]
    tasks := [{ id := "t1", description := "write tests", status := "todo" }]
    profile := [("humor", "0.5")]
    step_history := [] }

/-! ## Theorems -/

/-- Claim C9: in the notices document rendered by the registry's notices
generator, every entry whose confirmed license is AGPL-3.0 is reported with
an explicit copyleft warning, and no entry whose confirmed license is
Apache-2.0 or MIT is reported with a copyleft warning. -/
theorem notices_copyleft_flag :
    (thirdPartyNotices.all fun e =>
        !(e.license == "AGPL-3.0") || hasCopyleftWarning e) = true ∧
    (thirdPartyNotices.all fun e =>
        !(e.license == "Apache-2.0" || e.license == "MIT") ||
          !(hasCopyleftWarning e)) = true := by
  constructor <;> decide

/-- Claim C10: an UNKNOWN-license entry of the notices document is not
guaranteed any compliance note: ai_hacking_study_prompts, ai-in-the-terminal
and n8n-terry-guide are rendered with no note at all, while local-deepthink
and PageLM carry a manual-review note — absence of a warning does not imply
the entry's license obligations are known. -/
theorem notices_unknown_license_notes :
    (["ai_hacking_study_prompts", "ai-in-the-terminal", "n8n-terry-guide"].all
      fun nm => thirdPartyNotices.any fun e =>
        e.name == nm && e.license == "UNKNOWN" && e.notes.isNone) = true ∧
    (["local-deepthink", "PageLM"].all fun nm =>
      thirdPartyNotices.any fun e =>
        e.name == nm && e.license == "UNKNOWN" && hasManualReviewNote e)
      = true := by
  constructor <;> decide

/-- The breaker invariant holds at the initial state. -/
theorem cbInv_init : CBInv initBreaker :=
  ⟨fun _ => by decide, by decide⟩

/-- The breaker invariant is preserved by every guarded call. -/
theorem cbInv_step (b : CircuitBreaker) (now : Nat) (o : Outcome)
    (h : CBInv b) : CBInv (cbCall b now o).1 := by
  obtain ⟨h1, h2⟩ := h
  obtain ⟨st, fc, oa⟩ := b
  simp only [CBInv] at h1 h2 ⊢
  cases st <;> cases o <;>
    simp only [cbCall, cbAllow, cbRecordSuccess, cbRecordFailure] <;>
    split_ifs <;>
    simp_all [failureThreshold] <;>
    omega

/-- Every reachable breaker state satisfies the invariant. -/
theorem cbReachable_inv (b : CircuitBreaker) (hr : CBReachable b) :
    CBInv b := by
  induction hr with
  | init => exact cbInv_init
  | step b now o _ ih => exact cbInv_step b now o ih

/-- Claim C1: the circuit breaker is a three-state machine (CLOSED, OPEN,
HALF_OPEN).  Every state reachable from CLOSED satisfies: it never rests in
HALF_OPEN and, when CLOSED, has seen fewer than 5 consecutive failures; from
CLOSED a failing call opens the breaker exactly at the 5th consecutive
failure; while OPEN and inside the 60-second window every call fails
immediately (ProviderUnavailable) without invoking the underlying operation;
once 60 seconds have elapsed the breaker admits exactly one trial call via
HALF_OPEN — a successful trial returns it to CLOSED with the counter reset to
zero, a failed trial returns it to OPEN with the timer restarted. -/
theorem circuit_breaker_state_machine (b : CircuitBreaker)
    (hr : CBReachable b) :
    (b.state = CBState.closed → b.failureCount < failureThreshold) ∧
    b.state ≠ CBState.halfOpen ∧
    (∀ now, b.state = CBState.closed →
      (((cbCall b now Outcome.failure).1.state = CBState.opened ↔
          b.failureCount + 1 = failureThreshold) ∧
        (cbCall b now Outcome.failure).2 = true)) ∧
    (∀ now, b.state = CBState.closed →
      (cbCall b now Outcome.success).1 =
        { state := CBState.closed, failureCount := 0, openedAt := b.openedAt }) ∧
    (∀ now o, b.state = CBState.opened → now < b.openedAt + recoveryTimeout →
      cbCall b now o = (b, false)) ∧
    (∀ now, b.state = CBState.opened → b.openedAt + recoveryTimeout ≤ now →
      ((cbAllow b now).1.state = CBState.halfOpen ∧ (cbAllow b now).2 = true ∧
        (cbCall b now Outcome.success).1.state = CBState.closed ∧
        (cbCall b now Outcome.success).1.failureCount = 0 ∧
        (cbCall b now Outcome.success).2 = true ∧
        (cbCall b now Outcome.failure).1.state = CBState.opened ∧
        (cbCall b now Outcome.failure).1.openedAt = now ∧
        (cbCall b now Outcome.failure).2 = true)) := by
  obtain ⟨h1, h2⟩ := cbReachable_inv b hr
  obtain ⟨st, fc, oa⟩ := b
  simp only at h1 h2
  refine ⟨h1, h2, fun now hb => ?_, fun now hb => ?_,
    fun now o hb hlt => ?_, fun now hb hge => ?_⟩
  · simp only at hb
    subst hb
    have hc := h1 rfl
    simp only [cbCall, cbAllow, cbRecordFailure]
    split_ifs with hif <;> simp_all [failureThreshold] <;> omega
  · simp only at hb
    subst hb
    simp [cbCall, cbAllow, cbRecordSuccess]
  · simp only at hb
    subst hb
    simp only at hlt
    have : ¬ (oa + recoveryTimeout ≤ now) := by omega
    cases o <;> simp [cbCall, cbAllow, this]
  · simp only at hb
    subst hb
    simp [cbCall, cbAllow, cbRecordSuccess, cbRecordFailure, hge]

/-- Concrete instance of C1: at the freshly created breaker (reachable by
construction) a single failure does not open the breaker, because one is not
yet the threshold of five. -/
theorem circuit_breaker_state_machine_witness :
    ((cbCall initBreaker 0 Outcome.failure).1.state = CBState.opened ↔
      initBreaker.failureCount + 1 = failureThreshold) ∧
    (cbCall initBreaker 0 Outcome.failure).2 = true :=
  (circuit_breaker_state_machine initBreaker CBReachable.init).2.2.1 0 rfl

/-- Claim C2: `get_llm_api_key` resolves a credential by exactly this
priority — explicit provider parameter, then the environment-configured
default provider, then `OPENAI_API_KEY` before `OPENROUTER_API_KEY`, then
`HUGGINGFACE_API_KEY`, then `GITHUB_TOKEN`, then the trimmed contents of the
file named by `HUGGINGFACE_KEY_FILE` — and returns `none` rather than raising
when nothing yields a key. -/
theorem get_llm_api_key_priority (env : Env) :
    (∀ p v k, providerEnvVar p = some v → env.vars v = some k →
        get_llm_api_key env (some p) = some k) ∧
    (∀ p v k, env.vars "JC_PROVIDER" = some p → providerEnvVar p = some v →
        env.vars v = some k → get_llm_api_key env none = some k) ∧
    (∀ a, env.vars "JC_PROVIDER" = none → env.vars "OPENAI_API_KEY" = some a →
        get_llm_api_key env none = some a) ∧
    (env.vars "JC_PROVIDER" = none → env.vars "OPENAI_API_KEY" = none →
        get_llm_api_key env none =
          ((env.vars "OPENROUTER_API_KEY").orElse fun _ =>
            (env.vars "HUGGINGFACE_API_KEY").orElse fun _ =>
              (env.vars "GITHUB_TOKEN").orElse fun _ => readKeyFile env)) ∧
    (∀ path s, env.vars "JC_PROVIDER" = none →
        env.vars "OPENAI_API_KEY" = none →
        env.vars "OPENROUTER_API_KEY" = none →
        env.vars "HUGGINGFACE_API_KEY" = none →
        env.vars "GITHUB_TOKEN" = none →
        env.vars "HUGGINGFACE_KEY_FILE" = some path →
        env.files path = some s →
        get_llm_api_key env none = some s.trim) ∧
    (env.vars "JC_PROVIDER" = none → env.vars "OPENAI_API_KEY" = none →
        env.vars "OPENROUTER_API_KEY" = none →
        env.vars "HUGGINGFACE_API_KEY" = none →
        env.vars "GITHUB_TOKEN" = none →
        env.vars "HUGGINGFACE_KEY_FILE" = none →
        get_llm_api_key env none = none) := by
  refine ⟨?_, ?_, ?_, ?_, ?_, ?_⟩
  · intro p v k hp hv
    simp [get_llm_api_key, lookupProviderKey, hp, hv]
  · intro p v k hd hp hv
    simp [get_llm_api_key, lookupProviderKey, hd, hp, hv, Option.orElse]
  · intro a hd ha
    simp [get_llm_api_key, lookupProviderKey, hd, ha, Option.orElse]
  · intro hd ha
    simp [get_llm_api_key, lookupProviderKey, hd, ha, Option.orElse]
  · intro path s hd ha hr hh hg hf hfile
    simp [get_llm_api_key, lookupProviderKey, readKeyFile, hd, ha, hr, hh,
      hg, hf, hfile, Option.orElse]
  · intro hd ha hr hh hg hf
    simp [get_llm_api_key, lookupProviderKey, readKeyFile, hd, ha, hr, hh,
      hg, hf, Option.orElse]

/-- Concrete instance of C2: with both `OPENAI_API_KEY=A` and
`OPENROUTER_API_KEY=B` set and no explicit provider, the resolver returns
`A`. -/
theorem get_llm_api_key_priority_witness :
    get_llm_api_key envBoth none = some "A" :=
  (get_llm_api_key_priority envBoth).2.2.1 "A" (by decide) (by decide)

/-- When every logged hit belongs to the same client and endpoint and is at
most one window old, the sliding-window count is the whole log. -/
theorem countRecent_full (ip : String) (ep : Endpoint) (now a : Nat)
    (hnow : now < a + windowSeconds) :
    ∀ hits : List Hit,
      (∀ h ∈ hits, h.ip = ip ∧ h.endpointTag = ep ∧ a ≤ h.time) →
      countRecent { hits := hits } ip ep now = hits.length := by
  intro hits
  induction hits with
  | nil => intro _; rfl
  | cons x xs ih =>
      intro hh
      obtain ⟨e1, e2, e3⟩ := hh x (by simp)
      have ihx := ih fun h hm => hh h (List.mem_cons_of_mem x hm)
      simp only [countRecent] at ihx ⊢
      rw [List.filter_cons_of_pos]
      · simp only [List.length_cons, ihx]
      · simp only [e1, e2, Bool.and_eq_true, beq_self_eq_true, true_and,
          decide_eq_true_eq]
        omega

/-- Under one window, the limiter's responses depend only on how many hits
were already logged: request number `i` (counting logged hits) is served iff
`i` is below the endpoint's budget. -/
theorem rlRun_expected (ip : String) (ep : Endpoint) (a : Nat) :
    ∀ (ts : List Nat) (hits : List Hit),
      (∀ t ∈ ts, a ≤ t ∧ t < a + windowSeconds) →
      (∀ h ∈ hits, h.ip = ip ∧ h.endpointTag = ep ∧ a ≤ h.time) →
      (rlRun { hits := hits } ip ep ts).2 =
        expectedResponses hits.length (rateLimit ep) ts.length := by
  intro ts
  induction ts with
  | nil => intro hits _ _; rfl
  | cons t ts ih =>
      intro hits hts hh
      obtain ⟨ha1, ha2⟩ := hts t (by simp)
      have hcount := countRecent_full ip ep t a ha2 hits hh
      have hh2 : ∀ h ∈ ({ ip := ip, endpointTag := ep, time := t } : Hit) :: hits,
          h.ip = ip ∧ h.endpointTag = ep ∧ a ≤ h.time := by
        intro h hm
        rcases List.mem_cons.1 hm with rfl | hm2
        · exact ⟨rfl, rfl, ha1⟩
        · exact hh h hm2
      have hts2 : ∀ u ∈ ts, a ≤ u ∧ u < a + windowSeconds :=
        fun u hm => hts u (List.mem_cons_of_mem t hm)
      have ihx := ih (({ ip := ip, endpointTag := ep, time := t } : Hit) :: hits)
        hts2 hh2
      by_cases hlt : hits.length < rateLimit ep <;>
        simp [rlRun, rlRequest, hcount, hlt, expectedResponses, ihx]

/-- Claim C3: rate limiting is per client IP and per endpoint with distinct
budgets — chat 10/minute, clarifying questions 20/minute, workspace events
50/minute — and any 11 requests to the chat endpoint from one IP within 60
seconds get ten 200s (in particular the 10th succeeds) followed by a 429
carrying a retry-after hint; the limiter consults no authentication data. -/
theorem rate_limit_chat (ts : List Nat) (ip : String) (a : Nat)
    (hlen : ts.length = 11)
    (hwin : ∀ t ∈ ts, a ≤ t ∧ t < a + windowSeconds) :
    rateLimit Endpoint.chat = 10 ∧
    rateLimit Endpoint.askQuestions = 20 ∧
    rateLimit Endpoint.events = 50 ∧
    (rlRun { hits := [] } ip Endpoint.chat ts).2 =
      List.replicate 10 { status := 200, retryAfter := none } ++
        [{ status := 429, retryAfter := some windowSeconds }] := by
  refine ⟨rfl, rfl, rfl, ?_⟩
  have h := rlRun_expected ip Endpoint.chat a ts [] hwin (by simp)
  rw [hlen] at h
  rw [h]
  decide

/-- Concrete instance of C3: eleven simultaneous chat requests from one
address — ten 200s then a 429 with a retry-after hint. -/
theorem rate_limit_chat_witness :
    (rlRun { hits := [] } "10.0.0.1" Endpoint.chat (List.replicate 11 0)).2 =
      List.replicate 10 { status := 200, retryAfter := none } ++
        [{ status := 429, retryAfter := some windowSeconds }] :=
  (rate_limit_chat (List.replicate 11 0) "10.0.0.1" 0 (by decide)
    (by decide)).2.2.2

/-- Mapping a section after a retraction over a list is the identity. -/
theorem map_map_id {α β : Type} (f : α → β) (g : β → α) (h : ∀ x, g (f x) = x) :
    ∀ l : List α, (l.map f).map g = l := by
  intro l
  induction l with
  | nil => rfl
  | cons x xs ih => simp [h, ih]

/-- Deserializing a serialized state reconstructs it exactly. -/
theorem decode_encode (s : JCState) : decodeState (encodeState s) = s := by
  obtain ⟨tid, ms, tks, pf, sh⟩ := s
  simp only [encodeState, decodeState]
  rw [map_map_id _ _ (fun m => rfl) ms, map_map_id _ _ (fun t => rfl) tks,
    map_map_id _ _ (fun r => rfl) sh]

/-- Claim C4: checkpoint round-trip — for every `JCState` with non-empty
messages and tasks, `save_checkpoint` followed by `load_checkpoint` on its
thread id returns the very state last saved (so the same thread id and
identical message and task counts and content); and `load_checkpoint` on a
thread id that was never saved fails with NotFound. -/
theorem checkpoint_round_trip (store : CheckpointStore) (s : JCState)
    (hm : s.messages ≠ []) (ht : s.tasks ≠ []) :
    load_checkpoint (save_checkpoint store s) s.thread_id = Except.ok s ∧
    (∀ tid, (store.entries.all fun e => !(e.1 == tid)) = true →
      load_checkpoint store tid = Except.error JCError.notFound) := by
  constructor
  · simp only [load_checkpoint, save_checkpoint]
    rw [List.find?_cons_of_pos]
    · simp [decode_encode]
    · simp
  · intro tid hall
    simp only [load_checkpoint]
    rw [List.find?_eq_none.2]
    intro e hmem
    have := List.all_eq_true.1 hall e hmem
    simpa using this

/-- Concrete instance of C4: a one-message, one-task state round-trips
through the empty store, and an id never saved is NotFound. -/
theorem checkpoint_round_trip_witness :
    load_checkpoint (save_checkpoint { entries := [] } sampleState)
        sampleState.thread_id = Except.ok sampleState ∧
    load_checkpoint ({ entries := [] } : CheckpointStore) "missing" =
      Except.error JCError.notFound := by
  have h := checkpoint_round_trip { entries := [] } sampleState
    (by decide) (by decide)
  exact ⟨h.1, h.2 "missing" (by decide)⟩

/-- Claim C5: for every non-empty input (run fresh, with an empty step
history), `run_flow` on `research_then_summarize` executes the declared steps
strictly in order and yields a result whose step history has exactly three
entries — `plan`, `research`, `summarize`, in that order — each recording the
step name and its wall-clock duration, and whose result object carries
`flow_id = "research_then_summarize"`, the final messages (one appended per
step) and the full step history, whatever the steps' durations are. -/
theorem run_flow_research_then_summarize (env : FlowEnv) (input : JCState)
    (hne : input.messages ≠ []) (hsh : input.step_history = []) :
    ∃ r, run_flow env "research_then_summarize" input = Except.ok r ∧
      r.flow_id = "research_then_summarize" ∧
      (r.step_history.map fun sr => sr.step) =
        ["plan", "research", "summarize"] ∧
      (r.step_history.map fun sr => sr.duration) =
        [env.durations "plan", env.durations "research",
          env.durations "summarize"] ∧
      r.messages.length = input.messages.length + 3 := by
  refine ⟨_, rfl, rfl, ?_, ?_, ?_⟩ <;>
    simp [run_flow, FLOWS, runStep, lastContent, hsh]

/-- Concrete instance of C5: a one-message input under an arbitrary concrete
oracle produces the three-step history in order. -/
theorem run_flow_research_then_summarize_witness :
    ∃ r, run_flow
        { llm := fun _ => "plan text", research := fun _ => "findings",
          durations := fun _ => 2 }
        "research_then_summarize" sampleState = Except.ok r ∧
      r.flow_id = "research_then_summarize" ∧
      (r.step_history.map fun sr => sr.step) =
        ["plan", "research", "summarize"] ∧
      (r.step_history.map fun sr => sr.duration) = [2, 2, 2] ∧
      r.messages.length = sampleState.messages.length + 3 :=
  run_flow_research_then_summarize
    { llm := fun _ => "plan text", research := fun _ => "findings",
      durations := fun _ => 2 }
    sampleState (by decide) rfl

/-- Claim C6: anonymous fallback — when no API key is configured, every
request to an authenticated endpoint resolves to the anonymous identity with
an empty scope list rather than being rejected; when an API key is
configured, a bad or missing credential fails with Unauthorized (401). -/
theorem anonymous_fallback (cfg : AuthConfig) (presented : Option String) :
    (cfg.apiKey = none →
      authenticate cfg presented =
        Except.ok { username := "anonymous", scopes := [] }) ∧
    (∀ k, cfg.apiKey = some k → presented ≠ some k →
      authenticate cfg presented = Except.error AuthError.unauthorized ∧
      authStatus AuthError.unauthorized = 401) := by
  constructor
  · intro h
    simp [authenticate, h]
  · intro k hk hne
    refine ⟨?_, rfl⟩
    cases presented with
    | none => simp [authenticate, hk]
    | some p =>
        have hp : p ≠ k := fun h => hne (by rw [h])
        simp [authenticate, hk, hp]

/-- Concrete instance of C6: with no key configured an arbitrary credential
resolves anonymously; with a key configured a missing credential is a 401. -/
theorem anonymous_fallback_witness :
    authenticate { apiKey := none } (some "whatever") =
        Except.ok { username := "anonymous", scopes := [] } ∧
    authenticate { apiKey := some "k1" } none =
        Except.error AuthError.unauthorized :=
  ⟨(anonymous_fallback { apiKey := none } (some "whatever")).1 rfl,
    ((anonymous_fallback { apiKey := some "k1" } none).2 "k1" rfl
      (by decide)).1⟩

/-- If the first `n` attempts fail transiently and attempt `n` succeeds, the
retry loop returns the success and slept the backoff delay before each
retry. -/
theorem retryGo_ok {E A : Type} (op : Nat → Except E A) (transient : E → Bool)
    (jitter : Nat → Nat) (base : Nat) (v : A) :
    ∀ n start,
      (∀ i, i < n → ∃ e, op (start + i) = Except.error e ∧
        transient e = true) →
      op (start + n) = Except.ok v →
      retryGo op transient jitter base start (n + 1) =
        (Except.ok v,
          (List.range n).map fun i => backoffDelay base jitter (start + i)) := by
  intro n
  induction n with
  | zero =>
      intro start _ hok
      simp only [Nat.add_zero] at hok
      simp [retryGo, hok]
  | succ m ih =>
      intro start hfail hok
      obtain ⟨e, he, ht⟩ := hfail 0 (Nat.succ_pos m)
      simp only [Nat.add_zero] at he
      have hfail2 : ∀ i, i < m → ∃ e2, op (start + 1 + i) = Except.error e2 ∧
          transient e2 = true := by
        intro i hi
        have := hfail (i + 1) (Nat.succ_lt_succ hi)
        simpa [Nat.add_comm, Nat.add_assoc, Nat.add_left_comm] using this
      have hok2 : op (start + 1 + m) = Except.ok v := by
        have h := hok
        rw [show start + (m + 1) = start + 1 + m by omega] at h
        exact h
      have ihx := ih (start + 1) hfail2 hok2
      show retryGo op transient jitter base start (m + 2) = _
      rw [List.range_succ_eq_map]
      simp only [retryGo, he, ht, if_true, ihx, List.map_cons, List.map_map]
      refine Prod.ext rfl ?_
      simp only [Nat.add_zero, List.cons.injEq, true_and]
      refine congrArg (List.map · (List.range m)) ?_
      funext i
      simp only [Function.comp]
      rw [show start + (i + 1) = start + 1 + i by omega]

/-- If every attempt up to and including attempt `n` fails (transiently up to
`n - 1`), the retry loop re-raises attempt `n`'s exception unchanged after
the same backoff sleeps. -/
theorem retryGo_exhaust {E A : Type} (op : Nat → Except E A)
    (transient : E → Bool) (jitter : Nat → Nat) (base : Nat) (e : E) :
    ∀ n start,
      (∀ i, i < n → ∃ e2, op (start + i) = Except.error e2 ∧
        transient e2 = true) →
      op (start + n) = Except.error e →
      retryGo op transient jitter base start (n + 1) =
        (Except.error e,
          (List.range n).map fun i => backoffDelay base jitter (start + i)) := by
  intro n
  induction n with
  | zero =>
      intro start _ herr
      simp only [Nat.add_zero] at herr
      simp [retryGo, herr]
  | succ m ih =>
      intro start hfail herr
      obtain ⟨e2, he, ht⟩ := hfail 0 (Nat.succ_pos m)
      simp only [Nat.add_zero] at he
      have hfail2 : ∀ i, i < m → ∃ e3, op (start + 1 + i) = Except.error e3 ∧
          transient e3 = true := by
        intro i hi
        have := hfail (i + 1) (Nat.succ_lt_succ hi)
        simpa [Nat.add_comm, Nat.add_assoc, Nat.add_left_comm] using this
      have herr2 : op (start + 1 + m) = Except.error e := by
        have h := herr
        rw [show start + (m + 1) = start + 1 + m by omega] at h
        exact h
      have ihx := ih (start + 1) hfail2 herr2
      show retryGo op transient jitter base start (m + 2) = _
      rw [List.range_succ_eq_map]
      simp only [retryGo, he, ht, if_true, ihx, List.map_cons, List.map_map]
      refine Prod.ext rfl ?_
      simp only [Nat.add_zero, List.cons.injEq, true_and]
      refine congrArg (List.map · (List.range m)) ?_
      funext i
      simp only [Function.comp]
      rw [show start + (i + 1) = start + 1 + i by omega]

/-- Claim C7: the retry decorator defaults to `max_attempts = 3` and base
delay 1s; the inter-attempt delays double — `1s, 2s, 4s, …` — plus random
jitter; it retries only exceptions the caller marked transient (a
non-transient failure is re-raised at once with no sleep); a call that fails
`max_attempts - 1` times transiently and then succeeds returns the
successful result; and after `max_attempts` failures the final exception is
re-raised unchanged. -/
theorem retry_with_backoff_spec {E A : Type} (op : Nat → Except E A)
    (transient : E → Bool) (jitter : Nat → Nat) (v : A) (e : E) :
    defaultRetryPolicy.maxAttempts = 3 ∧
    defaultRetryPolicy.baseDelay = 1 ∧
    (∀ i, backoffDelay 1 jitter i = 2 ^ i + jitter i) ∧
    (∀ n,
      (∀ i, i < n → ∃ e2, op i = Except.error e2 ∧ transient e2 = true) →
      op n = Except.ok v →
      retry_with_backoff op transient jitter
          { maxAttempts := n + 1, baseDelay := 1 } =
        (Except.ok v, (List.range n).map fun i => 2 ^ i + jitter i)) ∧
    (∀ n,
      (∀ i, i < n → ∃ e2, op i = Except.error e2 ∧ transient e2 = true) →
      op n = Except.error e →
      retry_with_backoff op transient jitter
          { maxAttempts := n + 1, baseDelay := 1 } =
        (Except.error e, (List.range n).map fun i => 2 ^ i + jitter i)) ∧
    (op 0 = Except.error e → transient e = false → ∀ n,
      retry_with_backoff op transient jitter
          { maxAttempts := n + 1, baseDelay := 1 } =
        (Except.error e, [])) := by
  refine ⟨rfl, rfl, fun i => by simp [backoffDelay], ?_, ?_, ?_⟩
  · intro n hfail hok
    have h := retryGo_ok op transient jitter 1 v n 0
      (by simpa using hfail) (by simpa using hok)
    simpa [retry_with_backoff, backoffDelay] using h
  · intro n hfail herr
    have h := retryGo_exhaust op transient jitter 1 e n 0
      (by simpa using hfail) (by simpa using herr)
    simpa [retry_with_backoff, backoffDelay] using h
  · intro h0 hnt n
    cases n with
    | zero => simp [retry_with_backoff, retryGo, h0]
    | succ m => simp [retry_with_backoff, retryGo, h0, hnt]

/-- Concrete instance of C7: an operation that times out twice and succeeds
on the third attempt returns the success after sleeping 1s then 2s (zero
jitter), under the default three-attempt policy. -/
theorem retry_with_backoff_spec_witness :
    retry_with_backoff
      (fun i => if i < 2 then Except.error "timeout" else Except.ok "done")
      (fun _ => true) (fun _ => 0) defaultRetryPolicy =
      (Except.ok "done", [1, 2]) := by
  have h := (retry_with_backoff_spec
    (fun i => if i < 2 then Except.error "timeout" else Except.ok "done")
    (fun _ => true) (fun _ => 0) "done" "timeout").2.2.2.1 2
    (fun i hi => ⟨"timeout", by simp [hi], rfl⟩) rfl
  exact h.trans rfl

/-- The constant-time comparison examines exactly `max` of the two lengths
positions, no matter what the contents are (no early exit on mismatch). -/
theorem ctCompare_steps (a : List Char) :
    ∀ b, (ctCompare a b).2 = max a.length b.length := by
  induction a with
  | nil =>
      intro b
      induction b with
      | nil => simp [ctCompare]
      | cons y ys ihb =>
          simp only [ctCompare, ihb, List.length_nil, List.length_cons]
          omega
  | cons x xs ih =>
      intro b
      cases b with
      | nil =>
          simp only [ctCompare, ih [], List.length_nil, List.length_cons]
          omega
      | cons y ys =>
          simp only [ctCompare, ih ys, List.length_cons]
          omega

/-- The constant-time comparison decides list equality. -/
theorem ctCompare_eq_iff (a : List Char) :
    ∀ b, (ctCompare a b).1 = true ↔ a = b := by
  induction a with
  | nil =>
      intro b
      cases b <;> simp [ctCompare]
  | cons x xs ih =>
      intro b
      cases b with
      | nil => simp [ctCompare]
      | cons y ys =>
          simp [ctCompare, Bool.and_eq_true, beq_iff_eq, ih ys]

/-- For a fixed salt and iteration count the modelled digest determines the
password. -/
theorem pbkdf2_inj (salt : String) (iter : Nat) (p q : String)
    (h : pbkdf2_hmac_sha256 salt iter p = pbkdf2_hmac_sha256 salt iter q) :
    p = q := by
  unfold pbkdf2_hmac_sha256 at h
  have h2 := List.append_cancel_right h
  have h3 := List.append_cancel_left h2
  cases p
  cases q
  exact congrArg String.mk (by simpa [String.toList] using h3)

/-- Claim C8: locally-stored user credentials are hashed with
PBKDF2-HMAC-SHA256 (the stored hash is tagged `pbkdf2_sha256`, not a bcrypt
binding); verification round-trips — every password verifies against its own
hash, and any different password fails against that hash; and the comparison
against the stored digest is constant-time (it examines a number of positions
that depends only on lengths, never on where a mismatch sits). -/
theorem password_hash_round_trip (salt p q : String) :
    (hash_password salt p).algorithm = "pbkdf2_sha256" ∧
    verify_password p (hash_password salt p) = true ∧
    (p ≠ q → verify_password q (hash_password salt p) = false) ∧
    (∀ a b : List Char, (ctCompare a b).2 = max a.length b.length) := by
  refine ⟨rfl, ?_, ?_, fun a b => ctCompare_steps a b⟩
  · simp only [verify_password, hash_password]
    exact (ctCompare_eq_iff _ _).2 rfl
  · intro hne
    cases h : verify_password q (hash_password salt p) with
    | false => rfl
    | true =>
        exfalso
        simp only [verify_password, hash_password] at h
        exact hne (pbkdf2_inj salt pbkdf2Iterations q p
          ((ctCompare_eq_iff _ _).1 h)).symm

/-- Concrete instance of C8: a password verifies against its own stored
hash, and a different password does not. -/
theorem password_hash_round_trip_witness :
    verify_password "hunter2" (hash_password "pepper" "hunter2") = true ∧
    verify_password "hunter3" (hash_password "pepper" "hunter2") = false := by
  have h := password_hash_round_trip "pepper" "hunter2" "hunter3"
  exact ⟨h.2.1, h.2.2.1 (by decide)⟩

end JCAgent
